import Mathlib

/-!
Verification of the astra-web dispatch and job-lifecycle subsystem.

This file gives a shallow embedding of the dispatch layer of the
astra-web repository: the `Task` data model (`astra_web/actor/base.py`),
the SLURM job-submission payload builders of `astra_web/actor/slurm.py`
and `astra_web/host_localizer/slurm.py`, the local execution back-ends
(`astra_web/actor/local.py`, `astra_web/host_localizer/local.py`), the
job-listing reconciliation (`list_job_ids`,
`list_dispatched_ids_by_state`), the SLURM request error flow
(`_request`, `_dispatch_command`) and the credential handling
(`update_user_token`, token redaction in error messages).

Strings are modelled with Lean `String`; Python slicing, prefix tests
and prefix removal are modelled on the underlying character lists
(`String.data`), which matches Python's code-point semantics.

Parts of the repository that are referenced but not present in the
source snapshot (the batch `_dispatch_tasks` implementations, the
`buildScript` job-script builder for task lists, `resolveBatchName`,
`write_to_file`) are modelled from the specification; each such
definition carries a doc comment starting with `Modelled from the
spec:`.
-/

set_option maxRecDepth 4096

namespace AstraWeb

/-! ## Python string primitives over character lists -/

/-- Python slice `s[:n]` (by code points). -/
def pyTake (n : Nat) (s : String) : String := ⟨s.data.take n⟩

/-- Python slice `s[-n:]` (by code points; whole string when `len(s) < n`). -/
def pyTakeLast (n : Nat) (s : String) : String := ⟨s.data.drop (s.data.length - n)⟩

/-- Python `s.startswith(p)`. -/
def startsWithPy (s p : String) : Bool := p.data.isPrefixOf s.data

/-- Python `s.removeprefix(p)`: drops `p` from the front when present,
otherwise returns `s` unchanged. -/
def removePfxPy (s p : String) : String :=
  if p.data.isPrefixOf s.data then ⟨s.data.drop p.data.length⟩ else s

/-! ## Data model (`astra_web/actor/base.py`) -/

/-- `Task` dataclass of `astra_web/actor/base.py`: one unit of execution. -/
structure Task where
  name : String
  command : List String
  cwd : String
  output_file_name_base : String
  timeout : Option Int := none
  threads : Option Int := none
deriving Repr, DecidableEq

/-- `SLURMConfiguration` of `astra_web/host_localizer/schemas/config.py`
(the actor variant in `actor/slurm.py` is built from the same
environment variables with the same field names, `proxy_url` apart). -/
structure SLURMConfiguration where
  astra_binary_path : String
  data_path : String
  output_path : String := "."
  base_url : String
  api_version : String
  proxy : Option String := none
  user_name : String
  user_token : String
  partition : String
  constraints : Option String := none
  environment : List String := []
  script_setup : String := ""
deriving Repr, DecidableEq

/-! ## Command rendering (`quote` lambda of both `_dispatch_command`s) -/

/-- The `quote` lambda of `SLURMActor._dispatch_command` and
`SLURMHostLocalizer._dispatch_command`:
`lambda s: f'"s"' if " " in s else s` — an argument is wrapped in
double quotes exactly when it contains a space character (Python
substring membership of the one-character string `" "`, i.e. presence
of the space code point). -/
def quote (s : String) : String :=
  if s.data.contains ' ' then "\"" ++ s ++ "\"" else s

/-- `cmd = " ".join(map(quote, command))`. -/
def renderCommand (command : List String) : String :=
  String.intercalate " " (command.map quote)

/-! ## SLURM time limit construction -/

/-- The `time_limit` JSON object of the submission payload. -/
structure TimeLimit where
  set : Bool
  number : Int
deriving Repr, DecidableEq

/-- `time_limit` as built by `SLURMActor._dispatch_command`
(`actor/slurm.py`): `set = timeout is not None`, and the number is the
timeout converted from seconds to minutes by floor division
(`timeout // 60 if timeout is not None else 0`). -/
def actorTimeLimit (timeout : Option Int) : TimeLimit :=
  ⟨timeout.isSome, match timeout with | some t => Int.fdiv t 60 | none => 0⟩

/-- `time_limit` as built by `SLURMHostLocalizer._dispatch_command`
(`host_localizer/slurm.py`): `set = timeout is not None`, and
`number = timeout or 0` — the raw seconds value (Python truthiness:
`None` and `0` both yield `0`), with no minute conversion. -/
def hlTimeLimit (timeout : Option Int) : TimeLimit :=
  ⟨timeout.isSome, match timeout with | some t => if t = 0 then 0 else t | none => 0⟩

/-! ## Job scripts and submission payloads -/

/-- The f-string job script of both `SLURMActor._dispatch_command` and
`SLURMHostLocalizer._dispatch_command` (their script templates are
textually identical): shebang, `set -euo pipefail`, the configured
setup fragment, the rendered command with stdout/stderr redirected to
`{base}.out` / `{base}.err`, and removal of either capture file when it
ended up empty. -/
def commandScript (setup cmd base : String) : String :=
  "#!/usr/bin/env bash\n\nset -euo pipefail\n\n# setup\n" ++ setup ++
  "\n# dispatched command\n" ++ cmd ++
  " > \x27" ++ base ++ ".out\x27 2> \x27" ++ base ++ ".err\x27\n# finalize\nstatus=$?\n" ++
  "[ ! -s \x27" ++ base ++ ".out\x27 ] && rm -f \x27" ++ base ++ ".out\x27\n" ++
  "[ ! -s \x27" ++ base ++ ".err\x27 ] && rm -f \x27" ++ base ++ ".err\x27\n"

/-- The `job` object of the submission payload built by
`SLURMActor._dispatch_command` (optional keys are modelled as `Option`
fields: `none` means the key is absent from the JSON object). -/
structure ActorJobPayload where
  name : String
  partition : String
  constraints : Option String
  time_limit : TimeLimit
  tasks_per_node : Option Int
  current_working_directory : String
  environment : List String
  standard_output : String
  standard_error : String
  script : String
deriving Repr, DecidableEq

/-- The `data["job"]` dict built by `SLURMActor._dispatch_command`. -/
def actor_dispatch_data (cfg : SLURMConfiguration) (name : String)
    (command : List String) (cwd base : String) (timeout threads : Option Int) :
    ActorJobPayload :=
  ⟨name, cfg.partition, cfg.constraints, actorTimeLimit timeout, threads, cwd,
   cfg.environment,
   cfg.output_path ++ "/" ++ base ++ "-slurm-%j.out",
   cfg.output_path ++ "/" ++ base ++ "-slurm-%j.err",
   commandScript cfg.script_setup (renderCommand command) base⟩

/-- The `job` object of the submission payload built by
`SLURMHostLocalizer._dispatch_command` (no `tasks_per_node` key; the
environment list is hard-coded in the source). -/
structure HLJobPayload where
  name : String
  partition : String
  constraints : Option String
  time_limit : TimeLimit
  current_working_directory : String
  environment : List String
  standard_output : String
  standard_error : String
  script : String
deriving Repr, DecidableEq

/-- The `data["job"]` dict built by `SLURMHostLocalizer._dispatch_command`. -/
def hl_dispatch_data (cfg : SLURMConfiguration) (name : String)
    (command : List String) (cwd base : String) (timeout : Option Int) :
    HLJobPayload :=
  ⟨name, cfg.partition, cfg.constraints, hlTimeLimit timeout, cwd,
   ["PATH=/bin:/usr/bin/:/usr/local/bin/", "LD_LIBRARY_PATH=/lib/:/lib64/:/usr/local/lib"],
   cfg.output_path ++ "/" ++ base ++ "-slurm-%j.out",
   cfg.output_path ++ "/" ++ base ++ "-slurm-%j.err",
   commandScript cfg.script_setup (renderCommand command) base⟩

/-- `DispatchResponse` of `host_localizer/schemas/dispatch.py` /
`actor/schemas/any.py`, parameterized by the submission payload type. -/
structure DispatchResponse (P : Type) where
  dispatch_type : String
  slurm_submission : Option P := none
  slurm_response : Option String := none
deriving Repr, DecidableEq

/-! ## Batch layer (modelled from the spec)

The repository declares `Actor._dispatch_tasks` abstractly
(`actor/base.py`) and calls it from `dispatch_generation` /
`dispatch_simulation`, but the batch implementations themselves are not
part of the source snapshot; they are modelled here from the
specification (§4.1 JobScript Builder, §4.2 Job Naming Resolver,
§4.4 SLURM dispatch, §4.3 Local Executor). -/

/-- Modelled from the spec: single split of a task name on the first
`-` into `(prefix, id)`; a name without `-` is all prefix, empty id
(§4.2). -/
def splitNameOnDash : List Char → List Char × List Char
  | [] => ([], [])
  | c :: rest =>
    if c = '-' then ([], rest)
    else
      let p := splitNameOnDash rest
      (c :: p.1, p.2)

/-- Modelled from the spec: `splitTaskName` on strings (§4.2). -/
def splitTaskName (name : String) : String × String :=
  let p := splitNameOnDash name.data
  (⟨p.1⟩, ⟨p.2⟩)

/-- Modelled from the spec: `resolveBatchName` (§4.2) — the Job Naming
Resolver is not under the source snapshot. If every task's id portion
is identical, the prefixes are joined with commas and the shared id is
appended once; otherwise the fallback `cumulative-tasks-<fresh id>` is
returned (`freshId` stands for the freshly generated unique id). -/
def resolveBatchName (tasks : List Task) (freshId : String) : String :=
  match tasks with
  | [] => "cumulative-tasks-" ++ freshId
  | t0 :: rest =>
    if rest.all (fun u => (splitTaskName u.name).2 == (splitTaskName t0.name).2) then
      String.intercalate "," ((t0 :: rest).map fun u => (splitTaskName u.name).1)
        ++ "-" ++ (splitTaskName t0.name).2
    else
      "cumulative-tasks-" ++ freshId

/-- Modelled from the spec: the `cd` line of a task's script fragment
(§4.1 step 2). -/
def cdLine (t : Task) : String := "cd \x27" ++ t.cwd ++ "\x27"

/-- Modelled from the spec: one task's fragment of the combined job
script (§4.1): echo the task name to stderr, `cd` into the task's
working directory, run the timed command with stdout/stderr redirected
to `{base}.out` / `{base}.err`, delete either capture file if empty,
echo `done` to stderr. -/
def taskFragment (t : Task) : String :=
  "echo \x27task: " ++ t.name ++ "\x27 >&2\n" ++
  cdLine t ++ "\n" ++
  "time " ++ renderCommand t.command ++
  " > \x27" ++ t.output_file_name_base ++ ".out\x27 2> \x27" ++ t.output_file_name_base ++ ".err\x27\n" ++
  "[ ! -s \x27" ++ t.output_file_name_base ++ ".out\x27 ] && rm -f \x27" ++ t.output_file_name_base ++ ".out\x27\n" ++
  "[ ! -s \x27" ++ t.output_file_name_base ++ ".err\x27 ] && rm -f \x27" ++ t.output_file_name_base ++ ".err\x27\n" ++
  "echo \x27done\x27 >&2\n"

/-- Modelled from the spec: `buildScript` (§4.1) — shebang,
`set -euo pipefail`, the caller-supplied setup fragment, then the
concatenation of all task fragments in input order. -/
def buildScript (tasks : List Task) (setup : String) : String :=
  "#!/usr/bin/env bash\n\nset -euo pipefail\n\n" ++ setup ++ "\n" ++
  String.join (tasks.map taskFragment)

/-- Modelled from the spec: aggregate time limit of a batch (§4.4
step 3) — the sum of all set `timeout` values, or `none` when no task
has one set. -/
def aggregateTimeout (tasks : List Task) : Option Int :=
  if (tasks.filterMap Task.timeout).isEmpty then none
  else some (tasks.filterMap Task.timeout).sum

/-- Modelled from the spec: aggregate `tasks_per_node` of a batch (§4.4
step 4) — the maximum of all set `threads` values, or `none` when no
task has one set. -/
def aggregateThreads (tasks : List Task) : Option Int :=
  match tasks.filterMap Task.threads with
  | [] => none
  | x :: xs => some (xs.foldl max x)

/-- Modelled from the spec: the SLURM `_dispatch_tasks` implementation
(§4.4) — absent from the source snapshot, which only declares the
abstract method and the single-command `_dispatch_command`. An empty
batch short-circuits to a neutral response with no network call; a
non-empty batch builds one submission payload (name via
`resolveBatchName`, time limit via the aggregate sum converted by the
actor's seconds→minutes rule, script via `buildScript`) and performs
exactly one POST, returning both the payload and the raw reply. The
second component lists the payloads actually sent over the network. -/
def slurmDispatchTasks (cfg : SLURMConfiguration) (freshId reply : String)
    (tasks : List Task) : DispatchResponse ActorJobPayload × List ActorJobPayload :=
  if tasks.isEmpty then (⟨"slurm", none, none⟩, [])
  else
    let payload : ActorJobPayload :=
      ⟨resolveBatchName tasks freshId, cfg.partition, cfg.constraints,
       actorTimeLimit (aggregateTimeout tasks), aggregateThreads tasks,
       "/tmp",
       cfg.environment ++
         ["ASTRA_BINARY_PATH=" ++ cfg.astra_binary_path, "ASTRA_DATA_PATH=" ++ cfg.data_path],
       cfg.output_path ++ "/" ++ resolveBatchName tasks freshId ++ "-slurm-%j.out",
       cfg.output_path ++ "/" ++ resolveBatchName tasks freshId ++ "-slurm-%j.err",
       buildScript tasks cfg.script_setup⟩
    (⟨"slurm", some payload, some reply⟩, [payload])

/-- One child-process invocation of the Local Executor
(`subprocess.run(command, cwd=cwd, ..., timeout=timeout)`). -/
structure SubprocessRun where
  command : List String
  cwd : String
  timeout : Option Int
deriving Repr, DecidableEq

/-- Modelled from the spec: the Local `_dispatch_tasks` implementation
(§4.3) — absent from the source snapshot. Tasks run strictly
sequentially in input order; the response is the neutral local response
with no SLURM payloads. The second component lists the subprocesses
actually spawned. -/
def localDispatchTasks (tasks : List Task) :
    DispatchResponse ActorJobPayload × List SubprocessRun :=
  (⟨"local", none, none⟩, tasks.map (fun t => ⟨t.command, t.cwd, t.timeout⟩))

/-! ## Local output capture files -/

/-- One file created in a working directory, with its content. -/
structure FileWrite where
  path : String
  content : String
deriving Repr, DecidableEq

/-- `os.path.join` for an absolute directory and a relative file name. -/
def pathJoin (dir file : String) : String := dir ++ "/" ++ file

/-- The capture files created by `LocalActor._dispatch_command`
(`actor/local.py`): both `{base}.out` and `{base}.err` are opened with
mode `"w"` before the subprocess runs and are never removed, so both
files exist afterwards with exactly the produced stream contents —
including zero-length files when a stream produced nothing. -/
def local_actor_output_files (cwd base stdoutContent stderrContent : String) :
    List FileWrite :=
  [⟨pathJoin cwd (base ++ ".out"), stdoutContent⟩,
   ⟨pathJoin cwd (base ++ ".err"), stderrContent⟩]

/-- Modelled from the spec: `write_to_file` — imported by
`host_localizer/local.py` from `.base` but not present in the source
snapshot; per the spec (§4.3 step 3) the file is written only if
non-empty content was produced. -/
def write_to_file (content path : String) : List FileWrite :=
  if content.isEmpty then [] else [⟨path, content⟩]

/-- The capture files created by
`LocalHostLocalizer._dispatch_command` (`host_localizer/local.py`):
captured stdout and stderr are handed to `write_to_file` with the
`{base}.out` / `{base}.err` paths. -/
def local_hl_output_files (cwd base stdoutContent stderrContent : String) :
    List FileWrite :=
  write_to_file stdoutContent (pathJoin cwd (base ++ ".out")) ++
  write_to_file stderrContent (pathJoin cwd (base ++ ".err"))

/-! ## Job states and listings -/

/-- `SLURMJobState` enum of `host_localizer/slurm.py`. -/
inductive SLURMJobState where
  | boot_fail | cancelled | completed | deadline | failed | node_fail
  | out_of_memory | pending | preempted | running | suspended | timeout
deriving Repr, DecidableEq

/-- The string value of each `SLURMJobState` member. -/
def SLURMJobState.value : SLURMJobState → String
  | .boot_fail => "boot_fail"
  | .cancelled => "cancelled"
  | .completed => "completed"
  | .deadline => "deadline"
  | .failed => "failed"
  | .node_fail => "node_fail"
  | .out_of_memory => "out_of_memory"
  | .pending => "pending"
  | .preempted => "preempted"
  | .running => "running"
  | .suspended => "suspended"
  | .timeout => "timeout"

/-- One job row of the scheduler's job-listing reply, as read by
`SLURMHostLocalizer.list_jobs`: its `name` and `state.current` list. -/
structure SchedulerJob where
  name : String
  state_current : List String
deriving Repr, DecidableEq

/-- The client-side state filter of `SLURMHostLocalizer.list_jobs`:
with a non-empty requested state set, keep a job when the set of its
lower-cased current states intersects the set of requested state
values; with an empty set, keep everything. -/
def hl_list_jobs (jobs : List SchedulerJob) (state : List SLURMJobState) :
    List SchedulerJob :=
  if state.isEmpty then jobs
  else jobs.filter fun j =>
    j.state_current.any fun s => state.any fun st => st.value == s.toLower

/-- `JobIdsOutput` (imported by `host_localizer/slurm.py` from
`.schemas.io`): generation and simulation ID lists. -/
structure JobIdsOutput where
  particles : List String
  simulations : List String
deriving Repr, DecidableEq

/-- `SLURMHostLocalizer.list_job_ids`: take the names of the
state-filtered scheduler jobs, keep those starting with `generate-`
(resp. `simulate-`) with the prefix stripped, then keep only IDs that
exist among the local generator (resp. simulation) directory IDs. -/
def hl_list_job_ids (jobs : List SchedulerJob) (state : List SLURMJobState)
    (gen_ids sim_ids : List String) : JobIdsOutput :=
  let job_names := (hl_list_jobs jobs state).map SchedulerJob.name
  let particles :=
    (job_names.filter fun j => startsWithPy j "generate-").map
      fun j => removePfxPy j "generate-"
  let simulations :=
    (job_names.filter fun j => startsWithPy j "simulate-").map
      fun j => removePfxPy j "simulate-"
  ⟨particles.filter fun id => gen_ids.contains id,
   simulations.filter fun id => sim_ids.contains id⟩

/-- One job row as read by `SLURMActor.list_jobs` (the `extract`
helper), with its parsed current states. -/
structure ActorRawJob where
  job_id : Int
  partition : Option String
  name : String
  state_current : List SLURMJobState
  state_reason : String
deriving Repr, DecidableEq

/-- `SLURMJobOutput` of the actor schemas. -/
structure SLURMJobOutput where
  id : Int
  partition : Option String
  name : String
  state_current : List SLURMJobState
  state_reason : String
deriving Repr, DecidableEq

/-- `SLURMDispatchedJobOutput` of the actor schemas: the job-name with
the dispatch prefixes stripped, plus the raw SLURM row. -/
structure SLURMDispatchedJobOutput where
  id : String
  slurm : SLURMJobOutput
deriving Repr, DecidableEq

/-- `SLURMDispatchedJobsOutput` of the actor schemas. -/
structure SLURMDispatchedJobsOutput where
  particles : List SLURMDispatchedJobOutput
  simulations : List SLURMDispatchedJobOutput
deriving Repr, DecidableEq

/-- `SLURMDispatchedIDsOutput` of the actor schemas. -/
structure SLURMDispatchedIDsOutput where
  particles : List String
  simulations : List String
deriving Repr, DecidableEq

/-- The `extract` helper of `SLURMActor.list_jobs`: the dispatched ID
is the job name with `generate-` removed first, then `simulate-`. -/
def actor_extract (j : ActorRawJob) : SLURMDispatchedJobOutput :=
  ⟨removePfxPy (removePfxPy j.name "generate-") "simulate-",
   ⟨j.job_id, j.partition, j.name, j.state_current, j.state_reason⟩⟩

/-- `SLURMActor.list_jobs`: partition all scheduler-visible jobs by the
two dispatch-name prefixes and extract each. -/
def actor_list_jobs (jobs_all : List ActorRawJob) : SLURMDispatchedJobsOutput :=
  ⟨((jobs_all.filter fun j => startsWithPy j.name "generate-").map actor_extract),
   ((jobs_all.filter fun j => startsWithPy j.name "simulate-").map actor_extract)⟩

/-- `SLURMActor.list_dispatched_ids_by_state`: the `filter_and_extract`
helper keeps a job exactly when `state is not None and state in
job.slurm.state_current`. -/
def actor_list_dispatched_ids_by_state (state : Option SLURMJobState)
    (jobs_all : List ActorRawJob) : SLURMDispatchedIDsOutput :=
  let jobs := actor_list_jobs jobs_all
  let fae := fun (l : List SLURMDispatchedJobOutput) =>
    (l.filter fun job =>
      match state with
      | none => false
      | some s => job.slurm.state_current.contains s).map SLURMDispatchedJobOutput.id
  ⟨fae jobs.particles, fae jobs.simulations⟩

/-! ## SLURM request errors and token redaction -/

/-- The rendering of the user token inside `SLURMHostLocalizer._request`'s
error message: `token[:4] + "****" + token[-4:]`. -/
def redactToken (t : String) : String :=
  pyTake 4 t ++ "****" ++ pyTakeLast 4 t

/-- The error message of `SLURMHostLocalizer._request` on an HTTP
error (`proxies` stands for the rendered proxies mapping). -/
def requestFailMsg (reqName url user_name user_token proxies : String) : String :=
  "Failed to send " ++ reqName ++ " request to SLURM \x27" ++ url ++
  "\x27 (user_name=\x27" ++ user_name ++ "\x27, user_token=\x27" ++
  redactToken user_token ++ "\x27, proxies=" ++ proxies ++ ")."

/-- The error message of `SLURMHostLocalizer._dispatch_command` when
the submission request failed. -/
def dispatchFailMsg (cmd cwd : String) : String :=
  "Failed to dispatch command \x27" ++ cmd ++ "\x27 @ \x27" ++ cwd ++ "\x27 to SLURM"

/-- Python exceptions relevant to the SLURM request flow: a
`RuntimeError` with its message and optional `__cause__` chain, a
`requests.exceptions.HTTPError` (from `raise_for_status`, non-2xx), and
any other `requests` transport exception (connection/timeout errors,
which are not `HTTPError`s). -/
inductive PyError where
  | runtimeError (msg : String) (cause : Option PyError)
  | httpError (status : Nat)
  | transportError (msg : String)
deriving Repr

/-- Outcome of the underlying `requests` call: a 2xx reply with a JSON
body, a non-2xx status (making `raise_for_status` raise `HTTPError`),
or a transport failure raised by `requests` itself. -/
inductive RequestOutcome where
  | success (body : String)
  | httpFailure (status : Nat)
  | transportFailure (msg : String)
deriving Repr, DecidableEq

/-- `SLURMHostLocalizer._request`: on success return the JSON body; on
a non-2xx status the `except requests.exceptions.HTTPError` clause
wraps the failure into a `RuntimeError` carrying the redacted-token
message, chained to the `HTTPError`; any other transport exception is
not caught there and propagates unchanged. -/
def hl_request (cfg : SLURMConfiguration) (reqName url proxies : String)
    (o : RequestOutcome) : Except PyError String :=
  match o with
  | .success body => .ok body
  | .httpFailure status =>
    .error (.runtimeError
      (requestFailMsg reqName url cfg.user_name cfg.user_token proxies)
      (some (.httpError status)))
  | .transportFailure msg => .error (.transportError msg)

/-- `SLURMHostLocalizer._dispatch_command`: build the payload, POST it
via `_request`; the `except RuntimeError` clause wraps a `RuntimeError`
into the dispatch-specific `RuntimeError` naming the rendered command
and the working directory, chained to the underlying error; any other
exception propagates unchanged. -/
def hl_dispatch_command (cfg : SLURMConfiguration) (name : String)
    (command : List String) (cwd base : String) (timeout : Option Int)
    (proxies : String) (o : RequestOutcome) :
    Except PyError (DispatchResponse HLJobPayload) :=
  let cmd := renderCommand command
  let data := hl_dispatch_data cfg name command cwd base timeout
  match hl_request cfg "POST"
      (cfg.base_url ++ "/slurm/" ++ cfg.api_version ++ "/job/submit") proxies o with
  | .ok r => .ok ⟨"slurm", some data, some r⟩
  | .error (.runtimeError m c) =>
    .error (.runtimeError (dispatchFailMsg cmd cwd) (some (.runtimeError m c)))
  | .error e => .error e

/-! ## Credential handling -/

/-- `update_user_token` of both `SLURMActor` and `SLURMHostLocalizer`:
`self._config.user_token = user_token` — an in-place update of the
token field only. -/
def update_user_token (cfg : SLURMConfiguration) (user_token : String) :
    SLURMConfiguration :=
  { cfg with user_token := user_token }

/-! ## Concrete example inputs -/

/-- A concrete SLURM configuration used for evaluations. -/
def exampleConfig : SLURMConfiguration :=
  ⟨"/opt/astra/bin", "/data", ".", "https://slurm.example/api", "v0.0.40", none,
   "alice", "abcd1234wxyz", "main", none, [], ""⟩

/-- A generation task with a 90 second timeout. -/
def taskGen90 : Task :=
  ⟨"generate-X", ["/opt/astra/bin/generator", "generator.in"],
   "/data/generator/X", "generator", some 90, none⟩

/-- A simulation task with a 30 second timeout, sharing id `X`. -/
def taskSim30 : Task :=
  ⟨"simulate-X", ["/opt/astra/bin/astra", "run.in"],
   "/data/simulation/X", "run", some 30, none⟩

/-- A generation task with id `A` and no timeout. -/
def taskGenA : Task :=
  ⟨"generate-A", ["/opt/astra/bin/generator", "generator.in"],
   "/data/generator/A", "generator", none, none⟩

/-- A simulation task with id `B` and no timeout. -/
def taskSimB : Task :=
  ⟨"simulate-B", ["/opt/astra/bin/astra", "run.in"],
   "/data/simulation/B", "run", none, none⟩

/-- Scheduler-visible rows for the actor listing: `generate-A`,
`simulate-B`, `generate-C`, all completed. -/
def cexActorJobs : List ActorRawJob :=
  [⟨101, none, "generate-A", [.completed], ""⟩,
   ⟨102, none, "simulate-B", [.completed], ""⟩,
   ⟨103, none, "generate-C", [.completed], ""⟩]

/-- Scheduler-visible rows for the host-localizer listing: names
`generate-A`, `simulate-B`, `generate-C`. -/
def cexSchedJobs : List SchedulerJob :=
  [⟨"generate-A", ["COMPLETED"]⟩, ⟨"simulate-B", ["COMPLETED"]⟩,
   ⟨"generate-C", ["RUNNING"]⟩]

/-! ## Helper lemmas -/

theorem data_append (a b : String) : (a ++ b).data = a.data ++ b.data := rfl

theorem length_eq_data (s : String) : s.length = s.data.length := rfl

theorem startsWithPy_append (p r : String) : startsWithPy (p ++ r) p = true := by
  rw [startsWithPy, data_append, List.isPrefixOf_iff_prefix]
  exact List.prefix_append _ _

theorem removePfxPy_append (p r : String) : removePfxPy (p ++ r) p = r := by
  rw [removePfxPy, data_append, if_pos]
  · show String.mk _ = r
    rw [List.drop_left]
  · rw [List.isPrefixOf_iff_prefix]
    exact List.prefix_append _ _

/-! ## Claim theorems -/

/-- C4: dispatching an empty task list on both the Local back-end and
the SLURM back-end returns a neutral `DispatchResponse` with no
submission payload and no response payload, performs no network call
(no submitted payload) and spawns no subprocess. -/
theorem c4_empty_batch (cfg : SLURMConfiguration) (freshId reply : String) :
    slurmDispatchTasks cfg freshId reply [] = (⟨"slurm", none, none⟩, []) ∧
    localDispatchTasks [] = (⟨"local", none, none⟩, []) :=
  ⟨rfl, rfl⟩

/-- C9: `update_user_token` sets the user token field to the new value
and leaves every other configuration field (paths, base URL, API
version, proxy, user name, partition, constraints, environment, script
setup) unchanged. -/
theorem c9_update_token_frame (cfg : SLURMConfiguration) (t : String) :
    (update_user_token cfg t).user_token = t ∧
    (update_user_token cfg t).astra_binary_path = cfg.astra_binary_path ∧
    (update_user_token cfg t).data_path = cfg.data_path ∧
    (update_user_token cfg t).output_path = cfg.output_path ∧
    (update_user_token cfg t).base_url = cfg.base_url ∧
    (update_user_token cfg t).api_version = cfg.api_version ∧
    (update_user_token cfg t).proxy = cfg.proxy ∧
    (update_user_token cfg t).user_name = cfg.user_name ∧
    (update_user_token cfg t).partition = cfg.partition ∧
    (update_user_token cfg t).constraints = cfg.constraints ∧
    (update_user_token cfg t).environment = cfg.environment ∧
    (update_user_token cfg t).script_setup = cfg.script_setup :=
  ⟨rfl, rfl, rfl, rfl, rfl, rfl, rfl, rfl, rfl, rfl, rfl, rfl⟩

/-- C8 counterexample: the claim says every argument containing
whitespace is emitted quoted, but the source only tests for a space
character (`" " in s`): the argument `"a\tb"` contains whitespace (a
tab) yet is rendered unquoted. -/
theorem c8_quoting_cex :
    ('\t'.isWhitespace = true) ∧
    quote "a\tb" = "a\tb" ∧
    quote "a\tb" ≠ "\"a\tb\"" := by
  refine ⟨by decide, by decide, by decide⟩

/-- C8 (amended): an argument containing a space character is emitted
wrapped in double quotes; an argument without a space character is
emitted unchanged. -/
theorem c8_quoting_amended (s : String) :
    (s.data.contains ' ' = true → quote s = "\"" ++ s ++ "\"") ∧
    (s.data.contains ' ' = false → quote s = s) := by
  constructor <;> intro h
  · rw [quote, if_pos h]
  · rw [quote, if_neg (by simpa using h)]

/-- C8 witness: the amended statement at the spec's own examples. -/
theorem c8_quoting_witness :
    quote "hello world" = "\"" ++ "hello world" ++ "\"" ∧ quote "hello" = "hello" :=
  ⟨(c8_quoting_amended "hello world").1 (by decide),
   (c8_quoting_amended "hello").2 (by decide)⟩

/-- C6: evaluation of the code at the failing input. A locally
dispatched task whose command produces empty stdout and stderr: the
`LocalActor` back-end still creates `generator.out` (and
`generator.err`) in the working directory as zero-length files — the
files are opened with mode `"w"` before the subprocess runs and never
removed — while the host-localizer back-end (whose `write_to_file`
writes only non-empty content) creates no file at all, which is what
the claim, the spec (P5) and the `Actor._dispatch_tasks` doc comment
("when non-empty") require. -/
theorem c6_local_capture_bug_eval :
    (local_actor_output_files "/data/generator/K" "generator" "" "").contains
      ⟨"/data/generator/K/generator.out", ""⟩ = true ∧
    (local_actor_output_files "/data/generator/K" "generator" "" "").contains
      ⟨"/data/generator/K/generator.err", ""⟩ = true ∧
    local_hl_output_files "/data/generator/K" "generator" "" "" = [] := by
  refine ⟨by decide, by decide, rfl⟩

/-- C7 counterexample: the claim says every failing job-submit call
(transport error or non-2xx) surfaces as the wrapped dispatch-specific
error naming the command and working directory; but a transport failure
is not an `HTTPError`, so `_request`'s `except` clause does not wrap
it, `_dispatch_command`'s `except RuntimeError` does not catch it, and
the raw transport error propagates — it is no `RuntimeError` and names
neither the command nor the working directory. -/
theorem c7_dispatch_error_cex :
    hl_dispatch_command exampleConfig "generate-X"
        ["/opt/astra/bin/generator", "generator.in"] "/data/generator/X"
        "generator" none "None" (.transportFailure "connection refused")
      = .error (.transportError "connection refused") :=
  rfl

/-- C7 (amended): a non-2xx job-submit reply surfaces as the
dispatch-specific `RuntimeError` naming the rendered command and the
working directory, chained to the `RuntimeError` of `_request`, itself
chained to the underlying `HTTPError`; a transport failure propagates
unchanged (unwrapped); in either case dispatch raises and never returns
a normal response. -/
theorem c7_dispatch_error_amended (cfg : SLURMConfiguration) (name : String)
    (command : List String) (cwd base : String) (timeout : Option Int)
    (proxies : String) :
    (∀ status,
      hl_dispatch_command cfg name command cwd base timeout proxies (.httpFailure status)
        = .error (.runtimeError (dispatchFailMsg (renderCommand command) cwd)
            (some (.runtimeError
              (requestFailMsg "POST"
                (cfg.base_url ++ "/slurm/" ++ cfg.api_version ++ "/job/submit")
                cfg.user_name cfg.user_token proxies)
              (some (.httpError status)))))) ∧
    (∀ msg,
      hl_dispatch_command cfg name command cwd base timeout proxies (.transportFailure msg)
        = .error (.transportError msg)) ∧
    (∀ o, (∀ b, o ≠ .success b) →
      (hl_dispatch_command cfg name command cwd base timeout proxies o).isOk = false) := by
  refine ⟨fun status => rfl, fun msg => rfl, fun o h => ?_⟩
  cases o with
  | success b => exact absurd rfl (h b)
  | httpFailure s => rfl
  | transportFailure m => rfl

/-- C7 witness: the amended statement at a concrete non-2xx failure and
a concrete transport failure. -/
theorem c7_dispatch_error_witness :
    (hl_dispatch_command exampleConfig "generate-X"
        ["/opt/astra/bin/generator", "generator.in"] "/data/generator/X"
        "generator" none "None" (.httpFailure 500)
      = .error (.runtimeError
          (dispatchFailMsg
            (renderCommand ["/opt/astra/bin/generator", "generator.in"])
            "/data/generator/X")
          (some (.runtimeError
            (requestFailMsg "POST"
              ("https://slurm.example/api" ++ "/slurm/" ++ "v0.0.40" ++ "/job/submit")
              "alice" "abcd1234wxyz" "None")
            (some (.httpError 500)))))) ∧
    (hl_dispatch_command exampleConfig "generate-X"
        ["/opt/astra/bin/generator", "generator.in"] "/data/generator/X"
        "generator" none "None" (.transportFailure "timed out")).isOk = false :=
  ⟨(c7_dispatch_error_amended exampleConfig "generate-X"
      ["/opt/astra/bin/generator", "generator.in"] "/data/generator/X"
      "generator" none "None").1 500,
   (c7_dispatch_error_amended exampleConfig "generate-X"
      ["/opt/astra/bin/generator", "generator.in"] "/data/generator/X"
      "generator" none "None").2.2 (.transportFailure "timed out")
      (fun _ h => nomatch h)⟩

/-- C10 counterexample: the claim says that for every token longer than
eight characters the full token value never appears in the failure
message; but the rendering copies the first four and last four
characters around a literal `****` mask, so the twelve-character token
`abcd****wxyz` renders as exactly itself and the full token value
appears verbatim in the message. -/
theorem c10_token_redaction_cex :
    8 < "abcd****wxyz".length ∧
    redactToken "abcd****wxyz" = "abcd****wxyz" ∧
    ("abcd****wxyz".data <:+:
      (requestFailMsg "POST" "https://slurm.example/api" "alice"
        "abcd****wxyz" "None").data) := by
  refine ⟨by decide, by decide, by decide⟩

/-- C10 (amended): the token fragment of the failure message is a
function of only the token's first four and last four characters (so
the message reveals at most those eight characters of the token), and a
token longer than twelve characters never appears verbatim in the
rendered token fragment; a token of nine to twelve characters can
coincide with its own rendering when its middle characters are
asterisks (see the counterexample). -/
theorem c10_token_redaction_amended :
    (∀ t₁ t₂ reqName url user proxies : String,
      pyTake 4 t₁ = pyTake 4 t₂ → pyTakeLast 4 t₁ = pyTakeLast 4 t₂ →
      requestFailMsg reqName url user t₁ proxies
        = requestFailMsg reqName url user t₂ proxies) ∧
    (∀ t : String, 12 < t.length → ¬ t.data <:+: (redactToken t).data) := by
  constructor
  · intro t₁ t₂ reqName url user proxies h₁ h₂
    simp only [requestFailMsg, redactToken, h₁, h₂]
  · intro t ht hinf
    have hle := hinf.length_le
    have hlen : (redactToken t).data.length ≤ 12 := by
      have h1 : (redactToken t).data
          = (t.data.take 4 ++ "****".data) ++ t.data.drop (t.data.length - 4) := rfl
      have h4 : ("****".data).length = 4 := rfl
      rw [h1]
      simp only [List.length_append, List.length_take, List.length_drop, h4]
      omega
    rw [length_eq_data] at ht
    omega

/-- C10 witness: the amended statement at concrete tokens — two tokens
agreeing on their first and last four characters yield the identical
message, and a fourteen-character token is no substring of its
rendering. -/
theorem c10_token_redaction_witness :
    requestFailMsg "POST" "https://slurm.example/api" "alice" "abcd11111wxyz" "None"
      = requestFailMsg "POST" "https://slurm.example/api" "alice" "abcd22222wxyz" "None" ∧
    ¬ ("t0123456789abc".data <:+: (redactToken "t0123456789abc").data) :=
  ⟨c10_token_redaction_amended.1 "abcd11111wxyz" "abcd22222wxyz"
      "POST" "https://slurm.example/api" "alice" "None" (by decide) (by decide),
   c10_token_redaction_amended.2 "t0123456789abc" (by decide)⟩

theorem aggregateTimeout_of_some {tasks : List Task} {t : Task} (ht : t ∈ tasks)
    (hx : t.timeout ≠ none) :
    aggregateTimeout tasks = some (tasks.filterMap Task.timeout).sum := by
  obtain ⟨x, hx'⟩ := Option.ne_none_iff_exists'.mp hx
  have hmem : x ∈ tasks.filterMap Task.timeout := List.mem_filterMap.mpr ⟨t, ht, hx'⟩
  rw [aggregateTimeout, if_neg]
  simp [List.isEmpty_iff, List.ne_nil_of_mem hmem]

theorem aggregateTimeout_of_none {tasks : List Task}
    (h : ∀ t ∈ tasks, t.timeout = none) : aggregateTimeout tasks = none := by
  rw [aggregateTimeout, if_pos]
  rw [List.isEmpty_iff, List.filterMap_eq_nil_iff]
  exact h

/-- C1 counterexample: the claim says the submitted `time_limit` of a
dispatch whose tasks carry a set timeout is the summed seconds
integer-divided by 60; but `SLURMHostLocalizer._dispatch_command`
submits `number = timeout or 0` — the raw seconds. For a single task
with a 90 second timeout the payload carries `number = 90`, not
`90 // 60 = 1`. -/
theorem c1_time_limit_cex :
    (hl_dispatch_data exampleConfig "generate-X"
        ["/opt/astra/bin/generator", "generator.in"] "/data/generator/X"
        "generator" (some 90)).time_limit = ⟨true, 90⟩ ∧
    (hl_dispatch_data exampleConfig "generate-X"
        ["/opt/astra/bin/generator", "generator.in"] "/data/generator/X"
        "generator" (some 90)).time_limit ≠ ⟨true, Int.fdiv 90 60⟩ := by
  refine ⟨rfl, by decide⟩

/-- C1 (amended): on the actor back-end (batch aggregation modelled
from the spec, the seconds→minutes conversion from
`SLURMActor._dispatch_command`), a batch with at least one set timeout
submits `time_limit = {set: true, number: (sum of set timeouts) // 60}`
and a batch with none set submits `{set: false, number: 0}`; the
host-localizer back-end instead submits the raw seconds value
unconverted (`{set: true, number: timeout}`). -/
theorem c1_time_limit_amended (tasks : List Task) (cfg : SLURMConfiguration)
    (freshId reply : String) :
    (tasks ≠ [] → (∃ t ∈ tasks, t.timeout ≠ none) →
      ∃ p, (slurmDispatchTasks cfg freshId reply tasks).2 = [p] ∧
        (slurmDispatchTasks cfg freshId reply tasks).1.slurm_submission = some p ∧
        p.time_limit = ⟨true, Int.fdiv (tasks.filterMap Task.timeout).sum 60⟩) ∧
    (tasks ≠ [] → (∀ t ∈ tasks, t.timeout = none) →
      ∃ p, (slurmDispatchTasks cfg freshId reply tasks).2 = [p] ∧
        (slurmDispatchTasks cfg freshId reply tasks).1.slurm_submission = some p ∧
        p.time_limit = ⟨false, 0⟩) ∧
    (∀ name cwd base : String, ∀ command : List String, ∀ secs : Int, secs ≠ 0 →
      (hl_dispatch_data cfg name command cwd base (some secs)).time_limit
        = ⟨true, secs⟩) := by
  refine ⟨?_, ?_, ?_⟩
  · intro hne hex
    obtain ⟨t0, ts, rfl⟩ := List.exists_cons_of_ne_nil hne
    obtain ⟨t, ht, hx⟩ := hex
    refine ⟨_, rfl, rfl, ?_⟩
    show actorTimeLimit (aggregateTimeout (t0 :: ts)) = _
    rw [aggregateTimeout_of_some ht hx]
    rfl
  · intro hne hall
    obtain ⟨t0, ts, rfl⟩ := List.exists_cons_of_ne_nil hne
    refine ⟨_, rfl, rfl, ?_⟩
    show actorTimeLimit (aggregateTimeout (t0 :: ts)) = _
    rw [aggregateTimeout_of_none hall]
    rfl
  · intro name cwd base command secs hs
    show hlTimeLimit (some secs) = _
    simp [hlTimeLimit, hs]

/-- C1 witness: the amended statement at the spec's example — timeouts
90 and 30 sum to 120 seconds and submit as 2 minutes on the actor
back-end, while the host-localizer submits 90 raw seconds. -/
theorem c1_time_limit_witness :
    ((slurmDispatchTasks exampleConfig "fresh" "reply" [taskGen90, taskSim30]).2.map
      ActorJobPayload.time_limit) = [⟨true, 2⟩] ∧
    (hl_dispatch_data exampleConfig "simulate-X" ["/opt/astra/bin/astra", "run.in"]
      "/data/simulation/X" "run" (some 90)).time_limit = ⟨true, 90⟩ := by
  obtain ⟨p, h2, _, hval⟩ :=
    (c1_time_limit_amended [taskGen90, taskSim30] exampleConfig "fresh" "reply").1
      (by simp) ⟨taskGen90, by simp, by simp [taskGen90]⟩
  refine ⟨?_, ?_⟩
  · rw [h2, List.map_singleton, hval]
    decide
  · exact (c1_time_limit_amended [taskGen90, taskSim30] exampleConfig "fresh" "reply").2.2
      "simulate-X" "/data/simulation/X" "run" ["/opt/astra/bin/astra", "run.in"] 90 (by decide)

/-- C5: `resolveBatchName` (modelled from the spec — the Job Naming
Resolver is not under the source snapshot). When every task's id
portion (after a single split on the first `-`) is identical, the
result is the task-name prefixes joined with commas followed by `-` and
the shared id; when two tasks' ids differ, the result is the synthetic
fallback `cumulative-tasks-<fresh id>`. -/
theorem c5_batch_name (tasks : List Task) (freshId : String) :
    (∀ i : String, tasks ≠ [] →
      (∀ t ∈ tasks, (splitTaskName t.name).2 = i) →
      resolveBatchName tasks freshId
        = String.intercalate "," (tasks.map fun t => (splitTaskName t.name).1)
            ++ "-" ++ i) ∧
    ((∃ t₁ ∈ tasks, ∃ t₂ ∈ tasks,
        (splitTaskName t₁.name).2 ≠ (splitTaskName t₂.name).2) →
      resolveBatchName tasks freshId = "cumulative-tasks-" ++ freshId) := by
  constructor
  · intro i hne hall
    obtain ⟨t0, rest, rfl⟩ := List.exists_cons_of_ne_nil hne
    have hall0 : (splitTaskName t0.name).2 = i := hall t0 (List.mem_cons_self _ _)
    have hrest : rest.all
        (fun u => (splitTaskName u.name).2 == (splitTaskName t0.name).2) = true := by
      rw [List.all_eq_true]
      intro u hu
      rw [beq_iff_eq, hall u (List.mem_cons_of_mem _ hu), hall0]
    simp only [resolveBatchName]
    rw [if_pos hrest, hall0]
  · rintro ⟨t₁, h₁, t₂, h₂, hne⟩
    cases tasks with
    | nil => exact absurd h₁ (List.not_mem_nil _)
    | cons t0 rest =>
      have hnall : ¬ (rest.all
          (fun u => (splitTaskName u.name).2 == (splitTaskName t0.name).2) = true) := by
        intro hAll
        have key : ∀ u ∈ t0 :: rest,
            (splitTaskName u.name).2 = (splitTaskName t0.name).2 := by
          intro u hu
          rcases List.mem_cons.mp hu with h | h
          · rw [h]
          · exact beq_iff_eq.mp (List.all_eq_true.mp hAll u h)
        exact hne ((key t₁ h₁).trans (key t₂ h₂).symm)
      simp only [resolveBatchName]
      rw [if_neg hnall]

/-- C5 witness: the amended statement at the spec's examples — tasks
`generate-X` and `simulate-X` merge to `generate,simulate-X`; tasks
`generate-A` and `simulate-B` fall back to the synthetic name. -/
theorem c5_batch_name_witness :
    resolveBatchName [taskGen90, taskSim30] "f8c1" = "generate,simulate-X" ∧
    resolveBatchName [taskGenA, taskSimB] "f8c1" = "cumulative-tasks-" ++ "f8c1" := by
  constructor
  · have h := (c5_batch_name [taskGen90, taskSim30] "f8c1").1 "X" (by simp)
      (by intro t ht; rcases List.mem_cons.mp ht with h | h
          · rw [h]; decide
          · rcases List.mem_cons.mp h with h' | h'
            · rw [h']; decide
            · exact absurd h' (List.not_mem_nil _))
    rw [h]
    decide
  · exact (c5_batch_name [taskGenA, taskSimB] "f8c1").2
      ⟨taskGenA, by simp, taskSimB, by simp, by decide⟩

/-- C3: `buildScript` (modelled from the spec — the batch job-script
builder is not under the source snapshot). For every non-empty task
list the script is the header followed by exactly one fragment per task
joined in the input order, and each task's fragment changes into that
task's working directory (`cd '<cwd>'`) immediately before running that
task's rendered command. -/
theorem c3_script_order (tasks : List Task) (setup : String) (h : tasks ≠ []) :
    buildScript tasks setup
      = "#!/usr/bin/env bash\n\nset -euo pipefail\n\n" ++ setup ++ "\n" ++
        String.join (tasks.map taskFragment) ∧
    ∀ t ∈ tasks, ∃ pre post,
      taskFragment t
        = pre ++ (cdLine t ++ "\n" ++ "time " ++ renderCommand t.command) ++ post ∧
      cdLine t = "cd \x27" ++ t.cwd ++ "\x27" := by
  refine ⟨rfl, fun t _ => ?_⟩
  refine ⟨"echo \x27task: " ++ t.name ++ "\x27 >&2\n",
    " > \x27" ++ t.output_file_name_base ++ ".out\x27 2> \x27" ++
      t.output_file_name_base ++ ".err\x27\n" ++
    "[ ! -s \x27" ++ t.output_file_name_base ++ ".out\x27 ] && rm -f \x27" ++
      t.output_file_name_base ++ ".out\x27\n" ++
    "[ ! -s \x27" ++ t.output_file_name_base ++ ".err\x27 ] && rm -f \x27" ++
      t.output_file_name_base ++ ".err\x27\n" ++
    "echo \x27done\x27 >&2\n", ?_, rfl⟩
  simp only [taskFragment, String.append_assoc]

/-- C3 witness: the statement at a concrete two-task list, with the
first task's fragment decomposition spelled out. -/
theorem c3_script_order_witness :
    buildScript [taskGen90, taskSim30] "module load astra"
      = "#!/usr/bin/env bash\n\nset -euo pipefail\n\n" ++ "module load astra" ++ "\n" ++
        String.join ([taskGen90, taskSim30].map taskFragment) ∧
    taskFragment taskGen90
      = "echo \x27task: generate-X\x27 >&2\n" ++
        (cdLine taskGen90 ++ "\n" ++ "time " ++ renderCommand taskGen90.command) ++
        (" > \x27generator.out\x27 2> \x27generator.err\x27\n" ++
         "[ ! -s \x27generator.out\x27 ] && rm -f \x27generator.out\x27\n" ++
         "[ ! -s \x27generator.err\x27 ] && rm -f \x27generator.err\x27\n" ++
         "echo \x27done\x27 >&2\n") ∧
    cdLine taskGen90 = "cd \x27/data/generator/X\x27" :=
  ⟨(c3_script_order [taskGen90, taskSim30] "module load astra"
      (List.cons_ne_nil _ _)).1,
   by decide, by decide⟩

theorem managed_mem {names : List String} {pfx : String} {ids : List String}
    {id : String}
    (h : id ∈ ((names.filter fun j => startsWithPy j pfx).map
        fun j => removePfxPy j pfx).filter fun i => ids.contains i) :
    id ∈ ids ∧ ∃ nm ∈ names, startsWithPy nm pfx = true ∧ removePfxPy nm pfx = id := by
  rw [List.mem_filter] at h
  obtain ⟨h1, h2⟩ := h
  obtain ⟨nm, hnm, heq⟩ := List.mem_map.mp h1
  rw [List.mem_filter] at hnm
  exact ⟨by simpa using h2, nm, hnm.1, hnm.2, heq⟩

theorem managed_retains {names : List String} {pfx id : String} {ids : List String}
    (hid : id ∈ ids) (hnm : (pfx ++ id) ∈ names) :
    id ∈ ((names.filter fun j => startsWithPy j pfx).map
        fun j => removePfxPy j pfx).filter fun i => ids.contains i := by
  rw [List.mem_filter]
  refine ⟨List.mem_map.mpr ⟨pfx ++ id,
    List.mem_filter.mpr ⟨hnm, startsWithPy_append pfx id⟩,
    removePfxPy_append pfx id⟩, by simpa using hid⟩

/-- C2 counterexample: the claim says that with state `None`/any no ID
with a local record is removed (e.g. scheduler names `generate-A`,
`simulate-B`, `generate-C` with local generator IDs `{A, C}` yield
generation IDs `{A, C}`); but `SLURMActor.list_dispatched_ids_by_state`
keeps a job only when `state is not None and state in
job.slurm.state_current`, so with `state = None` it returns no IDs at
all (and it never consults the local IDs in the first place). -/
theorem c2_reconciliation_cex :
    actor_list_dispatched_ids_by_state none cexActorJobs = ⟨[], []⟩ ∧
    ("A" ∈ ["A", "C"] ∧
      startsWithPy "generate-A" "generate-" = true ∧
      removePfxPy "generate-A" "generate-" = "A" ∧
      "A" ∉ (actor_list_dispatched_ids_by_state none cexActorJobs).particles) := by
  refine ⟨by decide, by decide, by decide, by decide, by decide⟩

/-- C2 (amended): for `SLURMHostLocalizer.list_job_ids` the claim
holds — every returned generation (resp. simulation) ID is a
scheduler-visible job name with the `generate-` (resp. `simulate-`)
prefix stripped and is a member of the local generator (resp.
simulation) IDs, and with an empty requested state set (the "any"
case) no prefixed scheduler name whose stripped ID has a local record
is removed. (`SLURMActor.list_dispatched_ids_by_state`, by contrast,
returns nothing when state is `None` and performs no local-record
intersection — see the counterexample.) -/
theorem c2_reconciliation_amended (jobs : List SchedulerJob)
    (state : List SLURMJobState) (gen_ids sim_ids : List String) :
    (∀ id ∈ (hl_list_job_ids jobs state gen_ids sim_ids).particles,
      id ∈ gen_ids ∧ ∃ j ∈ hl_list_jobs jobs state,
        startsWithPy j.name "generate-" = true ∧
        removePfxPy j.name "generate-" = id) ∧
    (∀ id ∈ (hl_list_job_ids jobs state gen_ids sim_ids).simulations,
      id ∈ sim_ids ∧ ∃ j ∈ hl_list_jobs jobs state,
        startsWithPy j.name "simulate-" = true ∧
        removePfxPy j.name "simulate-" = id) ∧
    (state = [] →
      ∀ id, id ∈ gen_ids → (∃ j ∈ jobs, j.name = "generate-" ++ id) →
        id ∈ (hl_list_job_ids jobs state gen_ids sim_ids).particles) ∧
    (state = [] →
      ∀ id, id ∈ sim_ids → (∃ j ∈ jobs, j.name = "simulate-" ++ id) →
        id ∈ (hl_list_job_ids jobs state gen_ids sim_ids).simulations) := by
  have hp : (hl_list_job_ids jobs state gen_ids sim_ids).particles
      = ((((hl_list_jobs jobs state).map SchedulerJob.name).filter
          fun j => startsWithPy j "generate-").map
            fun j => removePfxPy j "generate-").filter
              fun i => gen_ids.contains i := rfl
  have hs : (hl_list_job_ids jobs state gen_ids sim_ids).simulations
      = ((((hl_list_jobs jobs state).map SchedulerJob.name).filter
          fun j => startsWithPy j "simulate-").map
            fun j => removePfxPy j "simulate-").filter
              fun i => sim_ids.contains i := rfl
  refine ⟨?_, ?_, ?_, ?_⟩
  · intro id hmem
    rw [hp] at hmem
    obtain ⟨hid, nm, hnm, hpfx, heq⟩ := managed_mem hmem
    obtain ⟨j, hj, rfl⟩ := List.mem_map.mp hnm
    exact ⟨hid, j, hj, hpfx, heq⟩
  · intro id hmem
    rw [hs] at hmem
    obtain ⟨hid, nm, hnm, hpfx, heq⟩ := managed_mem hmem
    obtain ⟨j, hj, rfl⟩ := List.mem_map.mp hnm
    exact ⟨hid, j, hj, hpfx, heq⟩
  · rintro rfl id hid ⟨j, hj, hname⟩
    rw [hp]
    have hall : hl_list_jobs jobs [] = jobs := rfl
    exact managed_retains hid
      (by rw [hall, ← hname]; exact List.mem_map_of_mem SchedulerJob.name hj)
  · rintro rfl id hid ⟨j, hj, hname⟩
    rw [hs]
    have hall : hl_list_jobs jobs [] = jobs := rfl
    exact managed_retains hid
      (by rw [hall, ← hname]; exact List.mem_map_of_mem SchedulerJob.name hj)

/-- C2 witness: the amended statement at the claim's example —
scheduler names `generate-A`, `simulate-B`, `generate-C` with local
generator IDs `{A, C}` and simulation IDs `{}` (state "any") retain
`A`, and indeed yield exactly generation IDs `[A, C]` and simulation
IDs `[]`. -/
theorem c2_reconciliation_witness :
    "A" ∈ (hl_list_job_ids cexSchedJobs [] ["A", "C"] []).particles ∧
    (hl_list_job_ids cexSchedJobs [] ["A", "C"] []).particles = ["A", "C"] ∧
    (hl_list_job_ids cexSchedJobs [] ["A", "C"] []).simulations = [] :=
  ⟨(c2_reconciliation_amended cexSchedJobs [] ["A", "C"] []).2.2.1 rfl "A"
      (by decide) ⟨⟨"generate-A", ["COMPLETED"]⟩, by decide, by decide⟩,
   by decide, by decide⟩

end AstraWeb
